import Mathlib

/-!
# Verification of the agri-drone-analytics core

Shallow embedding of the algorithmic core of the agri-drone-analytics
dashboard, translated from the JavaScript sources:

* `src/frontend/src/utils/fieldGrid.js` (grid construction, grid stats)
* the zone-mapper module (`identifyInfectedZones`, `getZoneStatistics`)
* the path-planner module (`generateSprayPath`)
* `src/frontend/src/utils/alertRuleEngine.js` (`extractSignals`,
  `evaluateAlerts`, `resolveConflicts`, `AlertDebouncer`)
* the decision-rules module (`DECISION_RULES`)

Modelling conventions:

* JavaScript numbers (IEEE-754 doubles) are modelled as exact rationals `ℚ`.
  `parseFloat(x.toFixed(1))` becomes `round1` (round to one decimal,
  half up; all values rounded in this code are nonnegative, where JS
  `toFixed` also rounds half away from zero).
* A JS value that may be `undefined` (a missing property) or the
  non-finite result of a division by zero (`NaN`) is modelled as
  `Option ℚ` with `none` for undefined/NaN.  The only operation the code
  applies to such values is `x || default`, for which `undefined`, `NaN`
  and `0` behave identically (all falsy); `jsOr` captures this.
* The `gridStats` argument of `extractSignals` is read dynamically, by
  property name, so it is embedded as a property map `String → Option ℚ`;
  `GridStats.getNum` is the property map of the record `calculateGridStats`
  returns (exactly the fields of the JS return object, no others).
* The haversine distance `calculateDistance` (`R = 6371000` m, built from
  `Math.sin`/`cos`/`atan2`/`sqrt` over doubles) is transcendental and has
  no exact rational embedding; the planner is parametrised by the distance
  function `dist`, and every theorem about it holds for an arbitrary
  `dist`, hence in particular for the haversine one.
* `Date.now()` timestamps are explicit `Nat` millisecond arguments.
-/

section AgriDroneAnalytics

/- `Rat.add`, `Rat.sub`, `Rat.mul`, `Rat.inv` and `Rat.ofScientific` are
`@[irreducible]` in Batteries, which blocks `decide`/`rfl` evaluation of
concrete rational arithmetic; restore the default reducibility locally. -/
attribute [local semireducible] Rat.add Rat.sub Rat.mul Rat.inv Rat.ofScientific

/-! ## JS value helpers -/

/-- JS `x || d` for a numeric JS value `x` that may be `undefined` or `NaN`
(both modelled as `none`): `undefined`, `NaN` and `0` are falsy, any other
number is truthy. -/
def jsOr (x : Option ℚ) (d : ℚ) : ℚ :=
  match x with
  | none => d
  | some v => if v = 0 then d else v

/-- JS `x || d` for a numeric value known to be a finite number. -/
def jsOrNum (v d : ℚ) : ℚ :=
  if v = 0 then d else v

/-- JS `x || d` for a string value that may be `undefined`: `undefined` and
the empty string are falsy. -/
def jsOrStr (x : Option String) (d : String) : String :=
  match x with
  | none => d
  | some v => if v = "" then d else v

/-- JS `String.prototype.toLowerCase`, character by character.
(`String.toLower` itself is not kernel-reducible in this toolchain.) -/
def lowerStr (s : String) : String :=
  String.mk (s.data.map Char.toLower)

/-- Substring test on character lists: some tail of `hay` starts with
`nee`. -/
def charsInclude (hay nee : List Char) : Bool :=
  hay.tails.any (fun t => nee.isPrefixOf t)

/-- JS `String.prototype.includes`. -/
def jsIncludes (s sub : String) : Bool :=
  charsInclude s.data sub.data

/-- JS `parseFloat(x.toFixed(1))`: round to one decimal place. -/
def round1 (q : ℚ) : ℚ :=
  Rat.divInt (Rat.floor (q * 10 + 1/2)) 10

/-- JS `parseFloat(x.toFixed(6))`: round to six decimal places. -/
def round6 (q : ℚ) : ℚ :=
  Rat.divInt (Rat.floor (q * 1000000 + 1/2)) 1000000

/-- JS `Math.ceil`. -/
def jsCeil (q : ℚ) : ℤ :=
  -(Rat.floor (-q))

/-! ## Geospatial data model (gpsSimulator.js, fieldGrid.js) -/

/-- A GPS point `{lat, lng}`. -/
structure Point where
  lat : ℚ
  lng : ℚ
deriving DecidableEq, Repr

/-- `getFieldCenter()` from gpsSimulator.js: `FIELD_CONFIG.center`,
the New Delhi area field centre. -/
def getFieldCenter : Point :=
  { lat := 28.6139, lng := 77.2090 }

/-- `GRID_CONFIG.rows` from fieldGrid.js. -/
def gridRows : Nat := 10

/-- `GRID_CONFIG.cols` from fieldGrid.js. -/
def gridCols : Nat := 10

/-- `GRID_CONFIG.fieldSize.latDelta` from fieldGrid.js (degrees). -/
def fieldLatDelta : ℚ := 0.002

/-- `GRID_CONFIG.fieldSize.lngDelta` from fieldGrid.js (degrees). -/
def fieldLngDelta : ℚ := 0.002

/-- A grid cell, from the `GridCell` typedef in fieldGrid.js.  The JS
`bounds` array `[[south, west], [north, east]]` is flattened into four
named fields; `detections` is the list of detection ids mapped into the
cell. -/
structure GridCell where
  row : Nat
  col : Nat
  id : String
  center : Point
  south : ℚ
  west : ℚ
  north : ℚ
  east : ℚ
  detections : List String
  infected : Bool
deriving DecidableEq, Repr

/-- The 2-D grid array. -/
def Grid := List (List GridCell)

/-- `createFieldGrid()` from fieldGrid.js: a `gridRows × gridCols` cell
matrix covering the field rectangle, row 0 at the northern edge; cell
centres go through `parseFloat(toFixed(6))`. -/
def createFieldGrid : Grid :=
  let fieldCenter := getFieldCenter
  let cellLatSize := fieldLatDelta / (gridRows : ℚ)
  let cellLngSize := fieldLngDelta / (gridCols : ℚ)
  let fieldNorth := fieldCenter.lat + fieldLatDelta / 2
  let fieldWest := fieldCenter.lng - fieldLngDelta / 2
  (List.range gridRows).map (fun (row : Nat) =>
    (List.range gridCols).map (fun (col : Nat) =>
      let north := fieldNorth - (row : ℚ) * cellLatSize
      let south := north - cellLatSize
      let west := fieldWest + (col : ℚ) * cellLngSize
      let east := west + cellLngSize
      { row := row
        col := col
        id := Nat.repr row ++ "_" ++ Nat.repr col
        center := { lat := round6 ((north + south) / 2)
                    lng := round6 ((west + east) / 2) }
        south := south, west := west, north := north, east := east
        detections := []
        infected := false }))

/-- `flattenGrid(grid)` from fieldGrid.js. -/
def flattenGrid (grid : Grid) : List GridCell :=
  grid.flatten

/-- `getInfectedCells(grid)` from fieldGrid.js. -/
def getInfectedCells (grid : Grid) : List GridCell :=
  (flattenGrid grid).filter (fun cell => cell.infected)

/-- The record returned by `calculateGridStats`.  The two percentage
fields are `Option ℚ`: on a grid with zero cells the JS computation
`(0 / 0) * 100` produces `NaN` (then `parseFloat(NaN.toFixed(1))` is still
`NaN`), modelled as `none`. -/
structure GridStats where
  totalCells : Nat
  infectedCount : Nat
  healthyCount : Nat
  infectedPercentage : Option ℚ
  healthyPercentage : Option ℚ
  chemicalSavings : Option ℚ
deriving DecidableEq, Repr

/-- `calculateGridStats(grid)` from fieldGrid.js.  Note the JS computes
`(infectedCount / totalCells) * 100` with no guard on `totalCells = 0`. -/
def calculateGridStats (grid : Grid) : GridStats :=
  let allCells := flattenGrid grid
  let infectedCells := allCells.filter (fun c => c.infected)
  let totalCells := allCells.length
  let infectedCount := infectedCells.length
  let healthyCount := totalCells - infectedCount
  let infectedPercentage : Option ℚ :=
    if totalCells = 0 then none
    else some ((infectedCount : ℚ) / (totalCells : ℚ) * 100)
  let healthyPercentage : Option ℚ :=
    if totalCells = 0 then none
    else some ((healthyCount : ℚ) / (totalCells : ℚ) * 100)
  { totalCells := totalCells
    infectedCount := infectedCount
    healthyCount := healthyCount
    infectedPercentage := infectedPercentage.map round1
    healthyPercentage := healthyPercentage.map round1
    chemicalSavings := healthyPercentage.map round1 }

/-- JS property access on the object returned by `calculateGridStats`,
viewed as a numeric property map: exactly the six fields of the JS return
object are present, any other name reads as `undefined` (`none`).  The
percentage fields pass their stored value through (a stored `NaN` reads as
`none`, which `jsOr` treats the same way JS treats `NaN`). -/
def GridStats.getNum (g : GridStats) : String → Option ℚ
  | "totalCells" => some (g.totalCells : ℚ)
  | "infectedCount" => some (g.infectedCount : ℚ)
  | "healthyCount" => some (g.healthyCount : ℚ)
  | "infectedPercentage" => g.infectedPercentage
  | "healthyPercentage" => g.healthyPercentage
  | "chemicalSavings" => g.chemicalSavings
  | _ => none

/-! ## Zone mapper statistics -/

/-- The record returned by `getZoneStatistics`.  In JS, `averageZoneSize`
is the string `(total/count).toFixed(1)` when there are zones and the
number `0` otherwise; it is modelled numerically as the rounded value. -/
structure ZoneStats where
  zoneCount : Nat
  totalInfectedCells : Nat
  averageZoneSize : ℚ
  largestZone : Nat
deriving DecidableEq, Repr

/-- `getZoneStatistics(zones)` from the zone-mapper module.  Unlike
`calculateGridStats`, this function does guard the `zones.length = 0`
case. -/
def getZoneStatistics (zones : List (List GridCell)) : ZoneStats :=
  let total := (zones.map List.length).sum
  { zoneCount := zones.length
    totalInfectedCells := total
    averageZoneSize :=
      if zones.length > 0 then round1 ((total : ℚ) / (zones.length : ℚ))
      else 0
    largestZone := (zones.map List.length).foldl max 0 }

/-! ## Signal extraction (alertRuleEngine.js) -/

/-- A detection record as consumed by the engine (`extractSignals` never
reads its `detections` argument, but the parameter is kept to mirror the JS
signature). -/
structure DetectionRecord where
  id : String
  gps : Option Point
deriving DecidableEq, Repr

/-- The `diagnosis` sub-object of a fusion result; each field may be
absent. -/
structure Diagnosis where
  severity : Option String
  refined_diagnosis : Option String
  confidence : Option ℚ
deriving DecidableEq, Repr

/-- A fusion result `{diagnosis: {...}}`; `diagnosis` may be absent. -/
structure FusionResult where
  diagnosis : Option Diagnosis
deriving DecidableEq, Repr

/-- `economicImpact.roi.perApplication` (accessed with `?.` in JS). -/
structure RoiPerApplication where
  roiRatio : Option ℚ
deriving DecidableEq, Repr

/-- `economicImpact.roi`. -/
structure Roi where
  perApplication : Option RoiPerApplication
deriving DecidableEq, Repr

/-- The economic-impact input of `extractSignals` (only the fields it
reads). -/
structure EconomicImpact where
  roi : Option Roi
  potentialLoss : Option ℚ
deriving DecidableEq, Repr

/-- The sensor snapshot fields read by `extractSignals` (the JS object also
carries `soil_ph`, `light_intensity`, `timestamp`, `sensor_id`, `status`,
which the engine never reads). -/
structure SensorData where
  soil_moisture : ℚ
  soil_temperature : ℚ
  air_humidity : ℚ
deriving DecidableEq, Repr

/-- The signal snapshot built by `extractSignals`.  `infectedCount` and
`totalCells` are only assigned when `gridStats` is present (otherwise the
properties stay undefined, `none`); the JS `timestamp` string is omitted
(never read by any rule).  All other fields start from the defaults in the
JS `signals` literal. -/
structure Signals where
  infectionPercentage : ℚ
  roiRatio : ℚ
  potentialLoss : ℚ
  soilMoisture : ℚ
  soilTemperature : ℚ
  airHumidity : ℚ
  fusionSeverity : String
  fusionDiagnosis : String
  fusionConfidence : ℚ
  infectionGrowthRate : ℚ
  infectedCount : Option ℚ
  totalCells : Option ℚ
deriving DecidableEq, Repr

/-- `fusionResults[fusionResults.length - 1].diagnosis` behind the JS
guards `fusionResults && fusionResults.length > 0` and
`if (latestFusion.diagnosis)`. -/
def latestDiagnosis (fusionResults : List FusionResult) : Option Diagnosis :=
  match fusionResults.getLast? with
  | none => none
  | some latestFusion => latestFusion.diagnosis

/-- The first part of `extractSignals`: defaults merged with the four
optional sources (grid stats, economic impact, latest fusion result,
sensor data).  In the JS this is a sequence of guarded mutations of one
`signals` object; since every field is written by at most one branch, it
is stated field-wise.  The `gridStats` argument is a JS object read by
property name (`String → Option ℚ`). -/
def extractBase (detections : List DetectionRecord)
    (gridStats : Option (String → Option ℚ))
    (economicImpact : Option EconomicImpact)
    (fusionResults : List FusionResult)
    (sensorData : Option SensorData) : Signals :=
  { infectionPercentage :=
      match gridStats with
      | none => 0
      | some g => jsOr (g "infectionPercentage") 0
    infectedCount :=
      match gridStats with
      | none => none
      | some g => some (jsOr (g "infectedCount") 0)
    totalCells :=
      match gridStats with
      | none => none
      | some g => some (jsOr (g "totalCells") 100)
    roiRatio :=
      match economicImpact with
      | none => 0
      | some e =>
        match e.roi with
        | none => 0
        | some r => jsOr (r.perApplication.bind RoiPerApplication.roiRatio) 0
    potentialLoss :=
      match economicImpact with
      | none => 0
      | some e =>
        match e.roi with
        | none => 0
        | some _ => jsOr e.potentialLoss 0
    fusionSeverity :=
      match latestDiagnosis fusionResults with
      | none => "none"
      | some d => jsOrStr d.severity "none"
    fusionDiagnosis :=
      match latestDiagnosis fusionResults with
      | none => "Unknown"
      | some d => jsOrStr d.refined_diagnosis "Unknown"
    fusionConfidence :=
      match latestDiagnosis fusionResults with
      | none => 0
      | some d => jsOr d.confidence 0
    soilMoisture :=
      match sensorData with
      | none => 50
      | some sd => jsOrNum sd.soil_moisture 50
    soilTemperature :=
      match sensorData with
      | none => 25
      | some sd => jsOrNum sd.soil_temperature 25
    airHumidity :=
      match sensorData with
      | none => 60
      | some sd => jsOrNum sd.air_humidity 60
    infectionGrowthRate := 0 }

/-- The growth-rate heuristic at the end of `extractSignals`:
`infectionPercentage * 0.15` above 15, `* 0.1` above 5, else the default
0. -/
def applyGrowthRate (signals : Signals) : Signals :=
  if signals.infectionPercentage > 15 then
    { signals with infectionGrowthRate := signals.infectionPercentage * 0.15 }
  else if signals.infectionPercentage > 5 then
    { signals with infectionGrowthRate := signals.infectionPercentage * 0.1 }
  else signals

/-- `extractSignals(detections, gridStats, economicImpact, fusionResults,
sensorData)` from alertRuleEngine.js. -/
def extractSignals (detections : List DetectionRecord)
    (gridStats : Option (String → Option ℚ))
    (economicImpact : Option EconomicImpact)
    (fusionResults : List FusionResult)
    (sensorData : Option SensorData) : Signals :=
  applyGrowthRate
    (extractBase detections gridStats economicImpact fusionResults sensorData)

/-! ## Decision rules (decisionRules.js) -/

/-- A decision rule.  The alert-template fields that no rule logic and no
claim reads (`message`, which is usually a function of the signals, and the
optional metadata producers `estimatedLoss`/`preventMistake`/
`savingsPotential`/`benefit`) are omitted; `condition` is the rule's
predicate over the signal snapshot. -/
structure Rule where
  id : String
  name : String
  priority : Nat
  condition : Signals → Bool
  alertType : String
  alertTitle : String
  action : String
  timeline : String
  icon : String

/-- An alert instantiated by `evaluateAlerts`.  The JS alert also carries
`id` (rule id + `Date.now()`), `timestamp`, `message`, a copy of the
signals and the metadata object; none of these influence the engine's
control flow and no claim reads them, so they are omitted. -/
structure Alert where
  ruleId : String
  ruleName : String
  priority : Nat
  type : String
  title : String
  action : String
  timeline : String
  icon : String
deriving DecidableEq, Repr

/-- The guarded diagnosis test used by several rules:
`signals.fusionDiagnosis && signals.fusionDiagnosis.toLowerCase()
.includes(word)`. -/
def diagnosisMentions (signals : Signals) (word : String) : Bool :=
  signals.fusionDiagnosis != "" &&
    jsIncludes (lowerStr signals.fusionDiagnosis) word

/-- `DECISION_RULES` from decisionRules.js, in source order. -/
def DECISION_RULES : List Rule := [
  { id := "RULE_001"
    name := "Critical Infection Outbreak"
    priority := 1
    condition := fun signals =>
      decide (signals.infectionPercentage > 25) &&
        (signals.fusionSeverity == "high" || signals.fusionSeverity == "medium")
    alertType := "CRITICAL"
    alertTitle := "🚨 Disease Outbreak Detected"
    action := "Apply appropriate fungicide/pesticide within 24 hours. Target infected zones first."
    timeline := "0-24 hours"
    icon := "🚨" },
  { id := "RULE_003"
    name := "Critical Drought Stress"
    priority := 1
    condition := fun signals =>
      decide (signals.soilMoisture < 20) || diagnosisMentions signals "drought"
    alertType := "CRITICAL"
    alertTitle := "💧 Severe Drought Detected"
    action := "Irrigate immediately. Do NOT apply chemicals until soil moisture restored to 40%+."
    timeline := "0-12 hours"
    icon := "💧" },
  { id := "RULE_007"
    name := "High Economic Risk"
    priority := 1
    condition := fun signals =>
      decide (signals.potentialLoss > 100000) &&
        decide (signals.infectionPercentage > 15)
    alertType := "CRITICAL"
    alertTitle := "💸 High Economic Risk"
    action := "Immediate intervention economically justified. Apply treatment within 24 hours."
    timeline := "0-24 hours"
    icon := "💸" },
  { id := "RULE_008"
    name := "Rapid Infection Growth"
    priority := 1
    condition := fun signals =>
      decide (signals.infectionGrowthRate > 2.0)
    alertType := "CRITICAL"
    alertTitle := "📈 Rapid Disease Spread"
    action := "Immediate containment required. Apply treatment to infected zones. Consider quarantine."
    timeline := "0-12 hours"
    icon := "📈" },
  { id := "RULE_002"
    name := "Moderate Infection Warning"
    priority := 2
    condition := fun signals =>
      decide (signals.infectionPercentage ≥ 10) &&
        decide (signals.infectionPercentage ≤ 25) &&
        (signals.fusionSeverity != "none")
    alertType := "WARNING"
    alertTitle := "⚠️ Infection Spreading"
    action := "Prepare treatment equipment. Verify diagnosis. Schedule spray within 48 hours."
    timeline := "24-48 hours"
    icon := "⚠️" },
  { id := "RULE_004"
    name := "Heat Stress Alert"
    priority := 2
    condition := fun signals =>
      decide (signals.soilTemperature > 35) || diagnosisMentions signals "heat"
    alertType := "WARNING"
    alertTitle := "🌡️ Heat Stress Risk"
    action := "Increase irrigation frequency. Monitor for wilting. Avoid spraying in peak heat."
    timeline := "12-24 hours"
    icon := "🌡️" },
  { id := "RULE_005"
    name := "Fungal Outbreak Risk"
    priority := 2
    condition := fun signals =>
      (decide (signals.airHumidity > 85) && decide (signals.soilMoisture > 70)) ||
        diagnosisMentions signals "fungal"
    alertType := "WARNING"
    alertTitle := "💨 High Fungal Risk"
    action := "Apply preventive fungicide. Reduce irrigation frequency. Improve field drainage."
    timeline := "24-48 hours"
    icon := "💨" },
  { id := "RULE_006"
    name := "Low ROI Warning"
    priority := 2
    condition := fun signals =>
      decide (signals.roiRatio > 0) && decide (signals.roiRatio < 2) &&
        decide (signals.infectionPercentage < 15)
    alertType := "WARNING"
    alertTitle := "💰 Low ROI - Verify Before Action"
    action := "DO NOT spray yet. Monitor for 24 hours. Consider spot treatment in worst zones only."
    timeline := "Monitor 24-48h"
    icon := "💰" },
  { id := "RULE_010"
    name := "Early Detection - Preventive Action"
    priority := 4
    condition := fun signals =>
      decide (signals.infectionPercentage ≥ 3) &&
        decide (signals.infectionPercentage < 10) &&
        decide (signals.fusionConfidence > 0.7)
    alertType := "INFO"
    alertTitle := "🛡️ Early Detection - Preventive Opportunity"
    action := "Consider spot treatment in affected zones only. Continue monitoring unaffected areas."
    timeline := "48-72 hours"
    icon := "🛡️" },
  { id := "RULE_009"
    name := "System Healthy"
    priority := 5
    condition := fun signals =>
      decide (signals.infectionPercentage < 5) &&
        decide (signals.soilMoisture ≥ 40) && decide (signals.soilMoisture ≤ 70) &&
        decide (signals.soilTemperature ≥ 20) && decide (signals.soilTemperature ≤ 32) &&
        diagnosisMentions signals "healthy"
    alertType := "INFO"
    alertTitle := "✅ Field Health Excellent"
    action := "Continue current care regimen. Routine monitoring sufficient."
    timeline := "N/A"
    icon := "✅" }
]

/-! ## Rule evaluation, conflict resolution, debouncing
(alertRuleEngine.js) -/

/-- `evaluateAlerts(signals)`: evaluate each rule's condition, collect the
triggered alerts, sort ascending by priority.  The JS `try/catch` around
each rule can never fire here because every embedded condition is total.
`Array.prototype.sort` with comparator `a.priority - b.priority` is a
stable ascending sort, embedded as the stable `List.insertionSort`. -/
def evaluateAlerts (signals : Signals) : List Alert :=
  let triggeredAlerts := DECISION_RULES.filterMap (fun rule =>
    if rule.condition signals then
      some { ruleId := rule.id
             ruleName := rule.name
             priority := rule.priority
             type := rule.alertType
             title := rule.alertTitle
             action := rule.action
             timeline := rule.timeline
             icon := rule.icon }
    else none)
  List.insertionSort (fun a b => a.priority ≤ b.priority) triggeredAlerts

/-- The four alert categories of `resolveConflicts`. -/
inductive AlertCategory
  | disease
  | environmental
  | economic
  | system
deriving DecidableEq, Repr

/-- The keyword classification of `resolveConflicts` (case-sensitive
`title.includes(...)` tests, in source order). -/
def categorize (alert : Alert) : AlertCategory :=
  if jsIncludes alert.title "Disease" || jsIncludes alert.title "Infection" then
    AlertCategory.disease
  else if jsIncludes alert.title "Drought" || jsIncludes alert.title "Heat" ||
      jsIncludes alert.title "Humidity" then
    AlertCategory.environmental
  else if jsIncludes alert.title "ROI" || jsIncludes alert.title "Economic" then
    AlertCategory.economic
  else
    AlertCategory.system

/-- `resolveConflicts(alerts)`: lists of length ≤ 1 are returned as-is;
otherwise the alerts are grouped into the four title-keyword categories
(`forEach` with `push` preserves input order, i.e. each group is a
`filter`) and the first element of each nonempty group survives, in the
fixed object-key order disease, environmental, economic, system. -/
def resolveConflicts (alerts : List Alert) : List Alert :=
  if alerts.length ≤ 1 then alerts
  else
    let disease := alerts.filter (fun a => categorize a == AlertCategory.disease)
    let environmental := alerts.filter (fun a => categorize a == AlertCategory.environmental)
    let economic := alerts.filter (fun a => categorize a == AlertCategory.economic)
    let system := alerts.filter (fun a => categorize a == AlertCategory.system)
    [disease, environmental, economic, system].filterMap List.head?

/-- The debouncer's persistent state: the `recentAlerts` map (association
list key → last-shown `Date.now()` milliseconds) and the window width. -/
structure AlertDebouncer where
  recentAlerts : List (String × Nat)
  windowMs : Nat
deriving DecidableEq, Repr

/-- `Map.prototype.get`. -/
def mapGet (m : List (String × Nat)) (k : String) : Option Nat :=
  (m.find? (fun p => p.1 == k)).map (fun p => p.2)

/-- `Map.prototype.set` (insert or update). -/
def mapSet (m : List (String × Nat)) (k : String) (v : Nat) : List (String × Nat) :=
  if m.any (fun p => p.1 == k) then
    m.map (fun p => if p.1 == k then (k, v) else p)
  else
    m ++ [(k, v)]

/-- The `AlertDebouncer` constructor's default window: 30000 ms. -/
def defaultWindowMs : Nat := 30000

/-- `new AlertDebouncer(windowMs)`. -/
def newAlertDebouncer (windowMs : Nat) : AlertDebouncer :=
  { recentAlerts := [], windowMs := windowMs }

/-- `AlertDebouncer.shouldShowAlert(alert)` with the current
`Date.now()` passed explicitly; returns the boolean plus the updated
state.  The JS guard is `!lastShown || (now - lastShown) > this.windowMs`:
a missing entry and a stored timestamp of `0` are both falsy
(`Option.getD 0` merges the two), and the JS subtraction of a later
timestamp is negative, never `> windowMs`, matching truncated `Nat`
subtraction. -/
def AlertDebouncer.shouldShowAlert (st : AlertDebouncer) (alert : Alert)
    (now : Nat) : Bool × AlertDebouncer :=
  let key := alert.ruleId ++ "_" ++ alert.type
  let lastShown := mapGet st.recentAlerts key
  if lastShown.getD 0 = 0 ∨ now - lastShown.getD 0 > st.windowMs then
    (true, { st with recentAlerts := mapSet st.recentAlerts key now })
  else
    (false, st)

/-! ## Path planner (pathPlanner.js) -/

/-- A waypoint of the spray path. -/
structure Waypoint where
  cellId : String
  position : Point
  detectionCount : Nat
deriving DecidableEq, Repr

/-- The record returned by `generateSprayPath`.  In the no-infection case
the JS return object has no `startPoint`/`endPoint` properties, modelled
as `none`. -/
structure SprayPath where
  waypoints : List Waypoint
  totalDistance : ℚ
  estimatedTime : ℤ
  pathExists : Bool
  startPoint : Option Point
  endPoint : Option Point
deriving DecidableEq, Repr

/-- The waypoint object pushed for a visited cell. -/
def toWaypoint (cell : GridCell) : Waypoint :=
  { cellId := cell.id
    position := cell.center
    detectionCount := cell.detections.length }

/-- The inner `for (let cell of unvisited)` scan of the nearest-neighbor
loop: the first unvisited cell attaining the minimum distance from `pos`
(the JS comparison `distance < shortestDistance` is strict, so an earlier
cell wins ties), together with that distance.  `none` only for an empty
list (the JS `Infinity` sentinel is always beaten by a finite
distance). -/
def selectNearest (dist : Point → Point → ℚ) (pos : Point) :
    List GridCell → Option (GridCell × ℚ)
  | [] => none
  | c :: rest =>
    let d := dist pos c.center
    match selectNearest dist pos rest with
    | none => some (c, d)
    | some (c2, d2) => if d2 < d then some (c2, d2) else some (c, d)

/-- The `while (unvisited.size > 0)` nearest-neighbor loop of
`generateSprayPath`: visit the nearest unvisited cell, append its
waypoint, accumulate the leg distance, move there.  The loop removes one
cell per iteration, so running it with fuel `unvisited.length` is exact;
the result is (waypoints, accumulated forward distance, final
position). -/
def nnLoop (dist : Point → Point → ℚ) :
    Nat → Point → List GridCell → List Waypoint × ℚ × Point
  | 0, pos, _ => ([], 0, pos)
  | Nat.succ fuel, pos, unvisited =>
    match selectNearest dist pos unvisited with
    | none => ([], 0, pos)
    | some (nearestCell, shortestDistance) =>
      let rest := nnLoop dist fuel nearestCell.center (unvisited.erase nearestCell)
      (toWaypoint nearestCell :: rest.1, shortestDistance + rest.2.1, rest.2.2)

/-- `generateSprayPath(grid)` from pathPlanner.js, parametrised by the
distance function (haversine in the source; see the header note).  Time
accounting: drone speed 5 m/s, spray time 3 s per waypoint,
`Math.ceil` of the sum; the returned `totalDistance` is
`parseFloat(totalDistance.toFixed(1))` of the raw accumulated sum. -/
def generateSprayPath (dist : Point → Point → ℚ) (grid : Grid) : SprayPath :=
  let infectedCells := getInfectedCells grid
  if infectedCells.length = 0 then
    { waypoints := []
      totalDistance := 0
      estimatedTime := 0
      pathExists := false
      startPoint := none
      endPoint := none }
  else
    let startPoint := getFieldCenter
    let run := nnLoop dist infectedCells.length startPoint infectedCells
    let path := run.1
    let returnDistance := dist run.2.2 startPoint
    let totalDistance := run.2.1 + returnDistance
    let travelTime := totalDistance / 5
    let sprayTime := (path.length : ℚ) * 3
    { waypoints := path
      totalDistance := round1 totalDistance
      estimatedTime := jsCeil (travelTime + sprayTime)
      pathExists := true
      startPoint := some startPoint
      endPoint := some startPoint }

/-- The haversine sum along a waypoint sequence as the specification
describes it: launch point to first waypoint, each consecutive pair, and
the closing leg back to the launch point (for the empty sequence this is
the degenerate `dist pos home`). -/
def legSum (dist : Point → Point → ℚ) (pos home : Point) :
    List Waypoint → ℚ
  | [] => dist pos home
  | w :: ws => dist pos w.position + legSum dist w.position home ws

/-! ## Concrete test inputs (used by witnesses and counterexamples) -/

/-- A concrete executable distance function for witnesses (the theorems
about the planner hold for every `dist`). -/
def taxiDist (p q : Point) : ℚ :=
  |p.lat - q.lat| + |p.lng - q.lng|

/-- A bare test cell: id `"row_col"`, centre at small integer
coordinates. -/
def mkTestCell (row col : Nat) (infected : Bool) : GridCell :=
  { row := row
    col := col
    id := Nat.repr row ++ "_" ++ Nat.repr col
    center := { lat := (row : ℚ), lng := (col : ℚ) }
    south := 0, west := 0, north := 0, east := 0
    detections := if infected then ["det"] else []
    infected := infected }

/-- A 10×10 test grid whose top-left 5×5 corner (25 cells) is infected:
the end-to-end scenario of the specification (100 cells, 25 infected,
clustered in one corner). -/
def testGrid : Grid :=
  (List.range 10).map (fun (row : Nat) =>
    (List.range 10).map (fun (col : Nat) =>
      mkTestCell row col (decide (row < 5) && decide (col < 5))))

/-- A small 2×2 test grid with three infected cells. -/
def miniGrid : Grid :=
  [[mkTestCell 0 0 true, mkTestCell 0 1 true],
   [mkTestCell 1 0 false, mkTestCell 1 1 true]]

/-- A fusion result whose diagnosis has severity `"high"` and no
`refined_diagnosis`/`confidence` (the scenario's "fusion severity =
high"). -/
def fusionHigh : FusionResult :=
  { diagnosis := some { severity := some "high"
                        refined_diagnosis := none
                        confidence := none } }

/-- Two same-category (disease) alerts in decreasing urgency order:
`badOrderAlerts` is NOT sorted by priority, the priority-2 alert comes
first. -/
def alertInfectionP2 : Alert :=
  { ruleId := "T_A", ruleName := "T_A", priority := 2, type := "WARNING"
    title := "Infection Test Alpha", action := "", timeline := "", icon := "" }

/-- The priority-1 disease alert of the unsorted pair. -/
def alertInfectionP1 : Alert :=
  { ruleId := "T_B", ruleName := "T_B", priority := 1, type := "CRITICAL"
    title := "Infection Test Beta", action := "", timeline := "", icon := "" }

/-- An unsorted alert list: the lower-urgency disease alert first. -/
def badOrderAlerts : List Alert := [alertInfectionP2, alertInfectionP1]

/-! ## Helper lemmas -/

theorem applyGrowthRate_infectionPercentage (s : Signals) :
    (applyGrowthRate s).infectionPercentage = s.infectionPercentage := by
  unfold applyGrowthRate
  split
  · rfl
  · split <;> rfl

theorem applyGrowthRate_soilMoisture (s : Signals) :
    (applyGrowthRate s).soilMoisture = s.soilMoisture := by
  unfold applyGrowthRate
  split
  · rfl
  · split <;> rfl

theorem applyGrowthRate_soilTemperature (s : Signals) :
    (applyGrowthRate s).soilTemperature = s.soilTemperature := by
  unfold applyGrowthRate
  split
  · rfl
  · split <;> rfl

theorem applyGrowthRate_airHumidity (s : Signals) :
    (applyGrowthRate s).airHumidity = s.airHumidity := by
  unfold applyGrowthRate
  split
  · rfl
  · split <;> rfl

theorem extractBase_infectionGrowthRate (detections gridStats economicImpact
    fusionResults sensorData) :
    (extractBase detections gridStats economicImpact fusionResults
      sensorData).infectionGrowthRate = 0 :=
  rfl

/-! ## Claim C2 -/

/-- Claim C2: for every grid, passing the result of `calculateGridStats`
as the `gridStats` argument of `extractSignals` yields a signal snapshot
whose `infectionPercentage` is `0`, however many cells are infected:
`calculateGridStats` emits the property `infectedPercentage` while
`extractSignals` reads the property `infectionPercentage`, which is absent
from the grid-stats object (second conjunct), so the grid's actual
infected percentage never reaches the rule engine through this pairing. -/
theorem extractSignals_gridStats_name_mismatch (detections : List DetectionRecord)
    (grid : Grid) (economicImpact : Option EconomicImpact)
    (fusionResults : List FusionResult) (sensorData : Option SensorData) :
    (extractSignals detections (some (calculateGridStats grid).getNum)
      economicImpact fusionResults sensorData).infectionPercentage = 0 ∧
    (calculateGridStats grid).getNum "infectionPercentage" = none :=
  ⟨rfl, rfl⟩

/-! ## Claim C8 -/

/-- Claim C8: in every signal snapshot produced by `extractSignals`,
`infectionGrowthRate` is `infectionPercentage * 0.15` when
`infectionPercentage > 15`, `infectionPercentage * 0.1` when
`5 < infectionPercentage ≤ 15`, and `0` otherwise. -/
theorem extractSignals_growthRate_heuristic (detections : List DetectionRecord)
    (gridStats : Option (String → Option ℚ))
    (economicImpact : Option EconomicImpact) (fusionResults : List FusionResult)
    (sensorData : Option SensorData) (s : Signals)
    (hs : s = extractSignals detections gridStats economicImpact fusionResults
      sensorData) :
    (15 < s.infectionPercentage →
      s.infectionGrowthRate = s.infectionPercentage * 0.15) ∧
    (5 < s.infectionPercentage ∧ s.infectionPercentage ≤ 15 →
      s.infectionGrowthRate = s.infectionPercentage * 0.1) ∧
    (s.infectionPercentage ≤ 5 → s.infectionGrowthRate = 0) := by
  subst hs
  unfold extractSignals
  refine ⟨fun h => ?_, fun h => ?_, fun h => ?_⟩
  · rw [applyGrowthRate_infectionPercentage] at h ⊢
    unfold applyGrowthRate
    rw [if_pos h]
  · rw [applyGrowthRate_infectionPercentage] at h ⊢
    unfold applyGrowthRate
    rw [if_neg (not_lt.mpr h.2), if_pos h.1]
  · rw [applyGrowthRate_infectionPercentage] at h
    unfold applyGrowthRate
    rw [if_neg (not_lt.mpr (h.trans (by norm_num))),
      if_neg (not_lt.mpr h)]
    exact extractBase_infectionGrowthRate _ _ _ _ _

/-- A grid-stats-like JS object carrying an `infectionPercentage`
property of 20 (as e.g. `economicImpact.areas` would), for the C8
witness. -/
def gsTestObj : String → Option ℚ :=
  fun k => if k = "infectionPercentage" then some 20 else none

/-- Witness for C8 at a concrete input: an `infectionPercentage` of 20
lies in the `> 15` branch and the growth rate is `20 * 0.15`. -/
theorem extractSignals_growthRate_heuristic_witness :
    15 < (extractSignals [] (some gsTestObj) none [] none).infectionPercentage ∧
    (extractSignals [] (some gsTestObj) none [] none).infectionGrowthRate =
      (extractSignals [] (some gsTestObj) none [] none).infectionPercentage * 0.15 :=
  ⟨by decide,
   (extractSignals_growthRate_heuristic [] (some gsTestObj) none [] none _
     rfl).1 (by decide)⟩

/-! ## Claim C10 -/

/-- Claim C10: when `sensorData` is present but a reading equals 0, the
default replaces the reading (JS `0 || default`): a zero `soil_moisture`
yields `soilMoisture = 50` (so a genuine zero-moisture reading can never
satisfy the `soilMoisture < 20` drought condition of RULE_003), a zero
`soil_temperature` yields `soilTemperature = 25`, and a zero
`air_humidity` yields `airHumidity = 60`. -/
theorem extractSignals_sensor_zero_defaults (detections : List DetectionRecord)
    (gridStats : Option (String → Option ℚ))
    (economicImpact : Option EconomicImpact) (fusionResults : List FusionResult)
    (sd : SensorData) (s : Signals)
    (hs : s = extractSignals detections gridStats economicImpact fusionResults
      (some sd)) :
    (sd.soil_moisture = 0 → s.soilMoisture = 50 ∧ ¬ s.soilMoisture < 20) ∧
    (sd.soil_temperature = 0 → s.soilTemperature = 25) ∧
    (sd.air_humidity = 0 → s.airHumidity = 60) := by
  subst hs
  refine ⟨fun h => ?_, fun h => ?_, fun h => ?_⟩
  · have hm : (extractSignals detections gridStats economicImpact fusionResults
        (some sd)).soilMoisture = 50 := by
      rw [show extractSignals detections gridStats economicImpact fusionResults
          (some sd) = applyGrowthRate (extractBase detections gridStats
          economicImpact fusionResults (some sd)) from rfl]
      rw [applyGrowthRate_soilMoisture]
      show jsOrNum sd.soil_moisture 50 = 50
      unfold jsOrNum
      rw [if_pos h]
    refine ⟨hm, ?_⟩
    rw [hm]
    decide
  · rw [show extractSignals detections gridStats economicImpact fusionResults
        (some sd) = applyGrowthRate (extractBase detections gridStats
        economicImpact fusionResults (some sd)) from rfl]
    rw [applyGrowthRate_soilTemperature]
    show jsOrNum sd.soil_temperature 25 = 25
    unfold jsOrNum
    rw [if_pos h]
  · rw [show extractSignals detections gridStats economicImpact fusionResults
        (some sd) = applyGrowthRate (extractBase detections gridStats
        economicImpact fusionResults (some sd)) from rfl]
    rw [applyGrowthRate_airHumidity]
    show jsOrNum sd.air_humidity 60 = 60
    unfold jsOrNum
    rw [if_pos h]

/-- An all-zero sensor snapshot for the C10 witness. -/
def sdZero : SensorData :=
  { soil_moisture := 0, soil_temperature := 0, air_humidity := 0 }

/-- Witness for C10 at a concrete input: a zero moisture reading comes out
as the default 50 and cannot trigger the drought-moisture condition. -/
theorem extractSignals_sensor_zero_defaults_witness :
    (extractSignals [] none none [] (some sdZero)).soilMoisture = 50 ∧
    ¬ (extractSignals [] none none [] (some sdZero)).soilMoisture < 20 :=
  (extractSignals_sensor_zero_defaults [] none none [] sdZero _ rfl).1 rfl

/-! ## Claim C5 -/

/-- Claim C5: for a fixed `ruleId + type` key and the default 30-second
window, starting from a fresh debouncer: a first call to `shouldShowAlert`
at time `t1 > 0` returns `true`; a second call with the same key at `t2`
with `t2 - t1 ≤ windowMs` (the window has not elapsed) returns `false` and
leaves the state unchanged (the timestamp is updated only on allowed
emissions); a third call at `t3` with `t3 - t1 > windowMs` returns `true`
again.  The recorded last-emission timestamps are `t1` after the first
call and `t3` after the third.  (`t1 > 0` reflects that `Date.now()` is
strictly positive; a stored timestamp of 0 would be falsy in the JS
guard.) -/
theorem alertDebouncer_window (alert : Alert) (t1 t2 t3 : Nat)
    (h1 : 0 < t1) (h2 : t2 - t1 ≤ defaultWindowMs)
    (h3 : defaultWindowMs < t3 - t1) :
    ((newAlertDebouncer defaultWindowMs).shouldShowAlert alert t1).1 = true ∧
    (((newAlertDebouncer defaultWindowMs).shouldShowAlert alert
        t1).2.shouldShowAlert alert t2).1 = false ∧
    (((newAlertDebouncer defaultWindowMs).shouldShowAlert alert
        t1).2.shouldShowAlert alert t2).2
      = ((newAlertDebouncer defaultWindowMs).shouldShowAlert alert t1).2 ∧
    ((((newAlertDebouncer defaultWindowMs).shouldShowAlert alert
        t1).2.shouldShowAlert alert t2).2.shouldShowAlert alert t3).1 = true ∧
    mapGet ((newAlertDebouncer defaultWindowMs).shouldShowAlert alert
        t1).2.recentAlerts (alert.ruleId ++ "_" ++ alert.type) = some t1 ∧
    mapGet ((((newAlertDebouncer defaultWindowMs).shouldShowAlert alert
        t1).2.shouldShowAlert alert t2).2.shouldShowAlert alert
        t3).2.recentAlerts (alert.ruleId ++ "_" ++ alert.type) = some t3 := by
  have e1 : (newAlertDebouncer defaultWindowMs).shouldShowAlert alert t1
      = (true, { recentAlerts := [(alert.ruleId ++ "_" ++ alert.type, t1)],
                 windowMs := defaultWindowMs }) := by
    unfold AlertDebouncer.shouldShowAlert newAlertDebouncer mapGet mapSet
    simp
  have hget : mapGet [(alert.ruleId ++ "_" ++ alert.type, t1)]
      (alert.ruleId ++ "_" ++ alert.type) = some t1 := by
    unfold mapGet
    simp
  have e2 : AlertDebouncer.shouldShowAlert
      { recentAlerts := [(alert.ruleId ++ "_" ++ alert.type, t1)],
        windowMs := defaultWindowMs } alert t2
      = (false, { recentAlerts := [(alert.ruleId ++ "_" ++ alert.type, t1)],
                  windowMs := defaultWindowMs }) := by
    unfold AlertDebouncer.shouldShowAlert
    dsimp only
    rw [hget]
    rw [if_neg]
    simp only [Option.getD_some]
    push_neg
    exact ⟨by omega, by omega⟩
  have e3 : AlertDebouncer.shouldShowAlert
      { recentAlerts := [(alert.ruleId ++ "_" ++ alert.type, t1)],
        windowMs := defaultWindowMs } alert t3
      = (true, { recentAlerts := [(alert.ruleId ++ "_" ++ alert.type, t3)],
                 windowMs := defaultWindowMs }) := by
    unfold AlertDebouncer.shouldShowAlert
    dsimp only
    rw [hget]
    rw [if_pos (Or.inr (by simpa using h3))]
    unfold mapSet
    simp
  rw [e1]
  simp [e2, e3, hget, mapGet]

/-- Witness for C5 at a concrete input: the priority-1 test alert at times
1, 2 and 40000 ms is shown, suppressed, then shown again. -/
theorem alertDebouncer_window_witness :
    ((newAlertDebouncer defaultWindowMs).shouldShowAlert alertInfectionP1 1).1
      = true ∧
    (((newAlertDebouncer defaultWindowMs).shouldShowAlert alertInfectionP1
        1).2.shouldShowAlert alertInfectionP1 2).1 = false ∧
    ((((newAlertDebouncer defaultWindowMs).shouldShowAlert alertInfectionP1
        1).2.shouldShowAlert alertInfectionP1 2).2.shouldShowAlert
        alertInfectionP1 40000).1 = true :=
  ⟨(alertDebouncer_window alertInfectionP1 1 2 40000 (by decide) (by decide)
      (by decide)).1,
   (alertDebouncer_window alertInfectionP1 1 2 40000 (by decide) (by decide)
      (by decide)).2.1,
   (alertDebouncer_window alertInfectionP1 1 2 40000 (by decide) (by decide)
      (by decide)).2.2.2.1⟩

/-! ## Claim C1 -/

/-- Counterexample to claim C1 as stated: for the concrete 100-cell grid
with exactly 25 infected cells and a fusion result of severity `"high"`,
the pipeline `calculateGridStats → extractSignals → evaluateAlerts` does
NOT include the "Critical Infection Outbreak" alert (the claim requires it
to be included): the grid-stats property-name mismatch makes the
`infectionPercentage` signal 0, and even with matching names the
percentage 25 would fail the strict `> 25` test of RULE_001. -/
theorem pipeline_outbreak_missing_counterexample :
    ¬ ∃ a ∈ evaluateAlerts (extractSignals []
        (some (calculateGridStats testGrid).getNum) none [fusionHigh] none),
      a.ruleName = "Critical Infection Outbreak" := by
  decide

/-- Claim C1 amended: for every grid of 100 cells with exactly 25 infected
and a latest fusion result of severity `"high"` (with the default
`"Unknown"` diagnosis), the pipeline
`calculateGridStats → extractSignals → evaluateAlerts` produces an alert
list that includes NEITHER the "Critical Infection Outbreak" alert (the
infection percentage never reaches the engine, see C2; and 25% would fail
the strict `> 25` threshold anyway) NOR the "System Healthy" alert (its
condition requires the diagnosis to mention "healthy"). -/
theorem pipeline_scenario_alerts (grid : Grid)
    (h100 : (calculateGridStats grid).totalCells = 100)
    (h25 : (calculateGridStats grid).infectedCount = 25) :
    (∀ a ∈ evaluateAlerts (extractSignals []
        (some (calculateGridStats grid).getNum) none [fusionHigh] none),
      a.ruleName ≠ "Critical Infection Outbreak") ∧
    (∀ a ∈ evaluateAlerts (extractSignals []
        (some (calculateGridStats grid).getNum) none [fusionHigh] none),
      a.ruleName ≠ "System Healthy") := by
  have hempty : evaluateAlerts (extractSignals []
      (some (calculateGridStats grid).getNum) none [fusionHigh] none) = [] := rfl
  rw [hempty]
  simp

/-- Witness for the amended C1 at the concrete scenario grid (100 cells,
25 infected, clustered in the top-left corner). -/
theorem pipeline_scenario_alerts_witness :
    ((calculateGridStats testGrid).totalCells = 100 ∧
     (calculateGridStats testGrid).infectedCount = 25) ∧
    (∀ a ∈ evaluateAlerts (extractSignals []
        (some (calculateGridStats testGrid).getNum) none [fusionHigh] none),
      a.ruleName ≠ "Critical Infection Outbreak") ∧
    (∀ a ∈ evaluateAlerts (extractSignals []
        (some (calculateGridStats testGrid).getNum) none [fusionHigh] none),
      a.ruleName ≠ "System Healthy") :=
  ⟨⟨by decide, by decide⟩,
   pipeline_scenario_alerts testGrid (by decide) (by decide)⟩

/-! ## Claim C4 -/

theorem mem_filter_categorize {alerts : List Alert} {c : AlertCategory}
    {a : Alert} (h : a ∈ alerts.filter (fun x => categorize x == c)) :
    a ∈ alerts ∧ categorize a = c := by
  rw [List.mem_filter] at h
  exact ⟨h.1, by simpa using h.2⟩

theorem head?_some_mem {α : Type} {l : List α} {a : α}
    (h : l.head? = some a) : a ∈ l := by
  cases l with
  | nil => cases h
  | cons x t =>
    have hx : x = a := by simpa using h
    subst hx
    exact List.mem_cons_self x t

theorem heads_categorize_distinct (alerts : List Alert)
    {c1 c2 : AlertCategory} (hne : c1 ≠ c2) :
    ∀ a ∈ (alerts.filter (fun x => categorize x == c1)).head?,
    ∀ b ∈ (alerts.filter (fun x => categorize x == c2)).head?,
      categorize a ≠ categorize b := by
  intro a ha b hb
  have h1 := (mem_filter_categorize (head?_some_mem (Option.mem_def.mp ha))).2
  have h2 := (mem_filter_categorize (head?_some_mem (Option.mem_def.mp hb))).2
  rw [h1, h2]
  exact hne

/-- Counterexample to claim C4 as stated: on an input list that is not
sorted by priority (disease-category alerts with priorities 2 then 1) the
survivor is the FIRST alert of the category, priority 2, not the
minimum-priority candidate (priority 1). -/
theorem resolveConflicts_minPriority_counterexample :
    ¬ (∀ a ∈ resolveConflicts badOrderAlerts, ∀ b ∈ badOrderAlerts,
        categorize b = categorize a → a.priority ≤ b.priority) := by
  decide

/-- Claim C4 amended: for EVERY input list of alerts (sorted or not),
`resolveConflicts` returns at most one alert per category — hence at most
4 alerts — and the survivor of each category is the FIRST alert of that
category in input order (the head of the input filtered to that
category); consequently, when the input is sorted ascending by priority
number (as it is in the engine, where `evaluateAlerts` pre-sorts) the
survivor is a minimum-priority-number candidate of its category. -/
theorem resolveConflicts_resolved (alerts : List Alert) :
    (resolveConflicts alerts).length ≤ 4 ∧
    (resolveConflicts alerts).Pairwise
      (fun a b => categorize a ≠ categorize b) ∧
    (∀ a ∈ resolveConflicts alerts,
      (alerts.filter (fun x => categorize x == categorize a)).head?
        = some a) ∧
    (alerts.Pairwise (fun a b => a.priority ≤ b.priority) →
      ∀ a ∈ resolveConflicts alerts, ∀ b ∈ alerts,
        categorize b = categorize a → a.priority ≤ b.priority) := by
  unfold resolveConflicts
  by_cases hlen : alerts.length ≤ 1
  · rw [if_pos hlen]
    rcases alerts with _ | ⟨x, _ | ⟨y, t⟩⟩
    · simp
    · refine ⟨by simp, by simp, ?_, ?_⟩
      · intro a ha
        simp only [List.mem_singleton] at ha
        subst ha
        simp
      · intro _ a ha b hb _
        simp only [List.mem_singleton] at ha hb
        rw [ha, hb]
    · simp at hlen
  · rw [if_neg hlen]
    dsimp only
    refine ⟨?_, ?_, ?_, ?_⟩
    · exact le_trans (List.length_filterMap_le _ _) (by simp)
    · rw [List.pairwise_filterMap]
      refine List.Pairwise.cons ?_ (List.Pairwise.cons ?_
        (List.Pairwise.cons ?_ (List.Pairwise.cons ?_ List.Pairwise.nil)))
      all_goals intro l2 hl2
      all_goals simp only [List.mem_cons, List.not_mem_nil, or_false] at hl2
      · rcases hl2 with rfl | rfl | rfl <;>
          exact heads_categorize_distinct alerts (by decide)
      · rcases hl2 with rfl | rfl <;>
          exact heads_categorize_distinct alerts (by decide)
      · rcases hl2 with rfl <;>
          exact heads_categorize_distinct alerts (by decide)
    · intro a ha
      rw [List.mem_filterMap] at ha
      obtain ⟨l, hl, hhead⟩ := ha
      simp only [List.mem_cons, List.not_mem_nil, or_false] at hl
      have key : ∀ c : AlertCategory,
          (alerts.filter (fun x => categorize x == c)).head? = some a →
          (alerts.filter
            (fun x => categorize x == categorize a)).head? = some a := by
        intro c hc
        rw [(mem_filter_categorize (head?_some_mem hc)).2]
        exact hc
      rcases hl with rfl | rfl | rfl | rfl <;> exact key _ hhead
    · intro hsorted a ha b hb hcat
      rw [List.mem_filterMap] at ha
      obtain ⟨l, hl, hhead⟩ := ha
      simp only [List.mem_cons, List.not_mem_nil, or_false] at hl
      have key : ∀ c : AlertCategory,
          (alerts.filter (fun x => categorize x == c)).head? = some a →
          a.priority ≤ b.priority := by
        intro c hc
        have hcata : categorize a = c :=
          (mem_filter_categorize (head?_some_mem hc)).2
        have hbmem : b ∈ alerts.filter (fun x => categorize x == c) := by
          rw [List.mem_filter]
          refine ⟨hb, ?_⟩
          simp [hcat, hcata]
        have hpair : (alerts.filter
            (fun x => categorize x == c)).Pairwise
              (fun a b => a.priority ≤ b.priority) :=
          hsorted.filter _
        rcases hfl : alerts.filter (fun x => categorize x == c) with _ | ⟨x, t⟩
        · rw [hfl] at hc; cases hc
        · rw [hfl] at hc hbmem hpair
          simp only [List.head?] at hc
          cases hc
          rcases List.mem_cons.mp hbmem with rfl | hbt
          · exact le_refl _
          · exact (List.pairwise_cons.mp hpair).1 b hbt
      rcases hl with rfl | rfl | rfl | rfl <;> exact key _ hhead

/-- Witness for the amended C4 at a concrete input: on the two-alert
disease-category list the result has at most 4 alerts, the survivor is
the first alert of its category in input order, and — the input being
sorted by priority — it has minimal priority in its category. -/
theorem resolveConflicts_resolved_witness :
    (resolveConflicts [alertInfectionP1, alertInfectionP2]).length ≤ 4 ∧
    (∀ a ∈ resolveConflicts [alertInfectionP1, alertInfectionP2],
      ([alertInfectionP1, alertInfectionP2].filter
        (fun x => categorize x == categorize a)).head? = some a) ∧
    ([alertInfectionP1, alertInfectionP2].Pairwise
      (fun a b => a.priority ≤ b.priority)) ∧
    (∀ a ∈ resolveConflicts [alertInfectionP1, alertInfectionP2],
      ∀ b ∈ [alertInfectionP1, alertInfectionP2],
        categorize b = categorize a → a.priority ≤ b.priority) :=
  ⟨(resolveConflicts_resolved [alertInfectionP1, alertInfectionP2]).1,
   (resolveConflicts_resolved [alertInfectionP1, alertInfectionP2]).2.2.1,
   by decide,
   (resolveConflicts_resolved [alertInfectionP1, alertInfectionP2]).2.2.2
     (by decide)⟩

/-! ## Path-planner lemmas -/

theorem selectNearest_eq_some {dist : Point → Point → ℚ} {pos : Point} :
    ∀ {l : List GridCell} {c : GridCell} {d : ℚ},
      selectNearest dist pos l = some (c, d) →
      c ∈ l ∧ d = dist pos c.center := by
  intro l
  induction l with
  | nil => intro c d h; simp [selectNearest] at h
  | cons a rest ih =>
    intro c d h
    simp only [selectNearest] at h
    rcases hrest : selectNearest dist pos rest with _ | ⟨c2, d2⟩
    · rw [hrest] at h
      simp only [Option.some.injEq, Prod.mk.injEq] at h
      obtain ⟨hc, hd⟩ := h
      subst hc
      exact ⟨List.mem_cons_self _ _, hd.symm⟩
    · rw [hrest] at h
      dsimp only at h
      by_cases hlt : d2 < dist pos a.center
      · rw [if_pos hlt] at h
        simp only [Option.some.injEq, Prod.mk.injEq] at h
        obtain ⟨hc, hd⟩ := h
        subst hc
        subst hd
        obtain ⟨hmem, hdist⟩ := ih hrest
        exact ⟨List.mem_cons_of_mem _ hmem, hdist⟩
      · rw [if_neg hlt] at h
        simp only [Option.some.injEq, Prod.mk.injEq] at h
        obtain ⟨hc, hd⟩ := h
        subst hc
        exact ⟨List.mem_cons_self _ _, hd.symm⟩

theorem selectNearest_eq_none {dist : Point → Point → ℚ} {pos : Point} :
    ∀ {l : List GridCell}, selectNearest dist pos l = none → l = [] := by
  intro l h
  cases l with
  | nil => rfl
  | cons a rest =>
    exfalso
    simp only [selectNearest] at h
    rcases hrest : selectNearest dist pos rest with _ | ⟨c2, d2⟩
    · rw [hrest] at h
      cases h
    · rw [hrest] at h
      dsimp only at h
      by_cases hlt : d2 < dist pos a.center
      · rw [if_pos hlt] at h; cases h
      · rw [if_neg hlt] at h; cases h

theorem nnLoop_perm (dist : Point → Point → ℚ) :
    ∀ (fuel : Nat) (pos : Point) (l : List GridCell), l.length = fuel →
      (nnLoop dist fuel pos l).1.Perm (l.map toWaypoint) := by
  intro fuel
  induction fuel with
  | zero =>
    intro pos l hl
    rw [List.length_eq_zero] at hl
    subst hl
    simp [nnLoop]
  | succ fuel ih =>
    intro pos l hl
    rcases hsel : selectNearest dist pos l with _ | ⟨c, d⟩
    · rw [selectNearest_eq_none hsel] at hl
      cases hl
    · have hmem := (selectNearest_eq_some hsel).1
      have hlen : (l.erase c).length = fuel := by
        rw [List.length_erase_of_mem hmem, hl]
        rfl
      have hperm := ih c.center (l.erase c) hlen
      show (nnLoop dist (fuel + 1) pos l).1.Perm (l.map toWaypoint)
      simp only [nnLoop, hsel]
      refine List.Perm.trans (List.Perm.cons (toWaypoint c) hperm) ?_
      have hl2 : (toWaypoint c :: (l.erase c).map toWaypoint)
          = (c :: l.erase c).map toWaypoint := rfl
      rw [hl2]
      exact ((List.perm_cons_erase hmem).map toWaypoint).symm

theorem nnLoop_legs (dist : Point → Point → ℚ) (home : Point) :
    ∀ (fuel : Nat) (pos : Point) (l : List GridCell), l.length = fuel →
      (nnLoop dist fuel pos l).2.1 + dist (nnLoop dist fuel pos l).2.2 home
        = legSum dist pos home (nnLoop dist fuel pos l).1 := by
  intro fuel
  induction fuel with
  | zero =>
    intro pos l hl
    simp [nnLoop, legSum]
  | succ fuel ih =>
    intro pos l hl
    rcases hsel : selectNearest dist pos l with _ | ⟨c, d⟩
    · rw [selectNearest_eq_none hsel] at hl
      cases hl
    · have hmem := (selectNearest_eq_some hsel).1
      have hd := (selectNearest_eq_some hsel).2
      have hlen : (l.erase c).length = fuel := by
        rw [List.length_erase_of_mem hmem, hl]
        rfl
      have hrec := ih c.center (l.erase c) hlen
      simp only [nnLoop, hsel]
      show d + (nnLoop dist fuel c.center (l.erase c)).2.1
          + dist (nnLoop dist fuel c.center (l.erase c)).2.2 home
        = legSum dist pos home
            (toWaypoint c :: (nnLoop dist fuel c.center (l.erase c)).1)
      rw [show legSum dist pos home
            (toWaypoint c :: (nnLoop dist fuel c.center (l.erase c)).1)
          = dist pos c.center
            + legSum dist c.center home
                (nnLoop dist fuel c.center (l.erase c)).1 from rfl]
      rw [← hrec, hd]
      ring

/-! ## Claim C3 -/

/-- Claim C3: for every grid with at least one infected cell (and any
distance function), `generateSprayPath` returns a path whose `startPoint`
and `endPoint` both equal the fixed launch point (the field centre), and
whose waypoint id sequence is a permutation of the infected cells' ids —
no duplicates, no omissions; when the infected cells' ids are distinct (as
in every grid built by `createFieldGrid`), every infected cell's id occurs
exactly once. -/
theorem generateSprayPath_permutation (dist : Point → Point → ℚ)
    (grid : Grid) (h : getInfectedCells grid ≠ []) :
    (generateSprayPath dist grid).pathExists = true ∧
    (generateSprayPath dist grid).startPoint = some getFieldCenter ∧
    (generateSprayPath dist grid).endPoint = some getFieldCenter ∧
    ((generateSprayPath dist grid).waypoints.map Waypoint.cellId).Perm
      ((getInfectedCells grid).map GridCell.id) ∧
    (((getInfectedCells grid).map GridCell.id).Nodup →
      ∀ c ∈ getInfectedCells grid,
        ((generateSprayPath dist grid).waypoints.map Waypoint.cellId).count
          c.id = 1) := by
  have hne : ¬ (getInfectedCells grid).length = 0 := by
    simpa [List.length_eq_zero] using h
  have hway : (generateSprayPath dist grid).waypoints
      = (nnLoop dist (getInfectedCells grid).length getFieldCenter
          (getInfectedCells grid)).1 := by
    unfold generateSprayPath
    rw [if_neg hne]
  have hperm : ((generateSprayPath dist grid).waypoints.map Waypoint.cellId).Perm
      ((getInfectedCells grid).map GridCell.id) := by
    rw [hway]
    have hp := (nnLoop_perm dist (getInfectedCells grid).length getFieldCenter
        (getInfectedCells grid) rfl).map Waypoint.cellId
    rw [List.map_map] at hp
    exact hp
  refine ⟨?_, ?_, ?_, hperm, ?_⟩
  · unfold generateSprayPath
    rw [if_neg hne]
  · unfold generateSprayPath
    rw [if_neg hne]
  · unfold generateSprayPath
    rw [if_neg hne]
  · intro hnd c hc
    rw [hperm.count_eq c.id]
    exact List.count_eq_one_of_mem hnd (List.mem_map_of_mem GridCell.id hc)

/-- Witness for C3 at a concrete input: the 2×2 test grid with three
infected cells under the taxicab distance. -/
theorem generateSprayPath_permutation_witness :
    getInfectedCells miniGrid ≠ [] ∧
    (generateSprayPath taxiDist miniGrid).startPoint = some getFieldCenter ∧
    ((generateSprayPath taxiDist miniGrid).waypoints.map Waypoint.cellId).Perm
      ((getInfectedCells miniGrid).map GridCell.id) :=
  ⟨by decide,
   (generateSprayPath_permutation taxiDist miniGrid (by decide)).2.1,
   (generateSprayPath_permutation taxiDist miniGrid (by decide)).2.2.2.1⟩

/-! ## Claim C6 -/

/-- Claim C6: `generateSprayPath` returns the well-formed "no path" record
(`pathExists = false`, empty waypoints, zero distance and time) exactly
when the grid has no infected cells; being a total function, it does so
without any exception. -/
theorem generateSprayPath_noPath (dist : Point → Point → ℚ) (grid : Grid) :
    ((generateSprayPath dist grid).pathExists = false ↔
      getInfectedCells grid = []) ∧
    (getInfectedCells grid = [] →
      generateSprayPath dist grid
        = { waypoints := [], totalDistance := 0, estimatedTime := 0,
            pathExists := false, startPoint := none, endPoint := none }) := by
  by_cases hl : (getInfectedCells grid).length = 0
  · have he : getInfectedCells grid = [] := List.length_eq_zero.mp hl
    constructor
    · unfold generateSprayPath
      rw [if_pos hl]
      simp [he]
    · intro _
      unfold generateSprayPath
      rw [if_pos hl]
  · have hne : getInfectedCells grid ≠ [] := by
      simpa [List.length_eq_zero] using hl
    constructor
    · unfold generateSprayPath
      rw [if_neg hl]
      simp [hne]
    · intro he
      exact absurd he hne

/-- Witness for C6 at a concrete input: the empty grid produces exactly
the "no path" record. -/
theorem generateSprayPath_noPath_witness :
    generateSprayPath taxiDist ([] : Grid)
      = { waypoints := [], totalDistance := 0, estimatedTime := 0,
          pathExists := false, startPoint := none, endPoint := none } :=
  (generateSprayPath_noPath taxiDist ([] : Grid)).2 rfl

/-! ## Claim C7 -/

theorem round1_abs_sub (q : ℚ) : |round1 q - q| ≤ 1/20 := by
  unfold round1
  rw [Rat.divInt_eq_div]
  have h1 : ((Rat.floor (q * 10 + 1/2) : ℤ) : ℚ) ≤ q * 10 + 1/2 :=
    Rat.le_floor.mp (le_refl _)
  have h2 : q * 10 + 1/2 < ((Rat.floor (q * 10 + 1/2) : ℤ) : ℚ) + 1 := by
    by_contra hcon
    push_neg at hcon
    have h3 : Rat.floor (q * 10 + 1/2) + 1 ≤ Rat.floor (q * 10 + 1/2) := by
      apply Rat.le_floor.mpr
      push_cast
      linarith
    omega
  rw [abs_le]
  constructor <;> linarith

/-- Claim C7: for every grid with at least one infected cell (and any
distance function — haversine in the source), the `totalDistance` of
`generateSprayPath` equals, to floating-point/rounding tolerance (at most
0.05 m, from the `toFixed(1)` rounding), the sum of distances along the
returned waypoint sequence: launch point to first waypoint, consecutive
waypoints, plus the closing leg back to the launch point; exactly, it is
that leg sum rounded to one decimal. -/
theorem generateSprayPath_totalDistance (dist : Point → Point → ℚ)
    (grid : Grid) (h : getInfectedCells grid ≠ []) :
    (generateSprayPath dist grid).totalDistance
      = round1 (legSum dist getFieldCenter getFieldCenter
          (generateSprayPath dist grid).waypoints) ∧
    |(generateSprayPath dist grid).totalDistance
      - legSum dist getFieldCenter getFieldCenter
          (generateSprayPath dist grid).waypoints| ≤ 1/20 := by
  have hne : ¬ (getInfectedCells grid).length = 0 := by
    simpa [List.length_eq_zero] using h
  have hway : (generateSprayPath dist grid).waypoints
      = (nnLoop dist (getInfectedCells grid).length getFieldCenter
          (getInfectedCells grid)).1 := by
    unfold generateSprayPath
    rw [if_neg hne]
  have htd : (generateSprayPath dist grid).totalDistance
      = round1 ((nnLoop dist (getInfectedCells grid).length getFieldCenter
          (getInfectedCells grid)).2.1
        + dist (nnLoop dist (getInfectedCells grid).length getFieldCenter
            (getInfectedCells grid)).2.2 getFieldCenter) := by
    unfold generateSprayPath
    rw [if_neg hne]
  have hlegs := nnLoop_legs dist getFieldCenter
      (getInfectedCells grid).length getFieldCenter (getInfectedCells grid) rfl
  have heq : (generateSprayPath dist grid).totalDistance
      = round1 (legSum dist getFieldCenter getFieldCenter
          (generateSprayPath dist grid).waypoints) := by
    rw [htd, hway, ← hlegs]
  refine ⟨heq, ?_⟩
  rw [heq]
  exact round1_abs_sub _

/-- Witness for C7 at a concrete input: the 2×2 test grid under the
taxicab distance. -/
theorem generateSprayPath_totalDistance_witness :
    getInfectedCells miniGrid ≠ [] ∧
    |(generateSprayPath taxiDist miniGrid).totalDistance
      - legSum taxiDist getFieldCenter getFieldCenter
          (generateSprayPath taxiDist miniGrid).waypoints| ≤ 1/20 :=
  ⟨by decide, (generateSprayPath_totalDistance taxiDist miniGrid (by decide)).2⟩

/-! ## Claim C9 -/

/-- Counterexample to claim C9 as stated: `calculateGridStats` does NOT
guard division by zero — applied to a grid with zero total cells it
computes `(0 / 0) * 100`, i.e. `NaN` (modelled `none`), not the claimed
0, for `infectedPercentage`. -/
theorem calculateGridStats_divzero_counterexample :
    ¬ (calculateGridStats ([] : Grid)).infectedPercentage = some 0 := by
  decide

/-- Claim C9 amended: `getZoneStatistics` does guard its division
(`averageZoneSize = 0` on an empty zone list), but `calculateGridStats`
has no such guard: on a grid with zero total cells both percentage fields
are `NaN` (`none`), not 0.  The division is only safe because every grid
with at least one cell yields finite percentages, and grids built by
`createFieldGrid` always have 100 cells. -/
theorem divisionByZero_guards :
    ((calculateGridStats ([] : Grid)).infectedPercentage = none ∧
     (calculateGridStats ([] : Grid)).healthyPercentage = none) ∧
    (getZoneStatistics []).averageZoneSize = 0 ∧
    (∀ grid : Grid, flattenGrid grid ≠ [] →
      (∃ p, (calculateGridStats grid).infectedPercentage = some p) ∧
      (∃ q, (calculateGridStats grid).healthyPercentage = some q)) ∧
    (calculateGridStats createFieldGrid).totalCells = 100 := by
  refine ⟨by decide, by decide, ?_, by decide⟩
  intro grid hne
  have hlen : ¬ (flattenGrid grid).length = 0 := by
    simpa [List.length_eq_zero] using hne
  constructor
  · refine ⟨round1 (((flattenGrid grid).filter
        (fun c => c.infected)).length / ((flattenGrid grid).length : ℚ) * 100), ?_⟩
    unfold calculateGridStats
    dsimp only
    rw [if_neg hlen]
    rfl
  · refine ⟨round1 ((((flattenGrid grid).length - ((flattenGrid grid).filter
        (fun c => c.infected)).length : Nat) : ℚ)
          / ((flattenGrid grid).length : ℚ) * 100), ?_⟩
    unfold calculateGridStats
    dsimp only
    rw [if_neg hlen]
    rfl

/-- Witness for the amended C9: the scenario test grid is nonempty, so its
percentages are finite. -/
theorem divisionByZero_guards_witness :
    flattenGrid testGrid ≠ [] ∧
    ((∃ p, (calculateGridStats testGrid).infectedPercentage = some p) ∧
     (∃ q, (calculateGridStats testGrid).healthyPercentage = some q)) :=
  ⟨by decide, divisionByZero_guards.2.2.1 testGrid (by decide)⟩

end AgriDroneAnalytics
